import Mathlib

/-!
# Verification of the tool-agent-swarm routing and delivery engine

Shallow embedding of `src/orchestrator/router.py` and
`src/orchestrator/server.py` (Python), together with proofs about the
behaviour of the Router, the Configuration Store, the Session Store, the
Delivery Client retry loop and the Sequential Delivery Queue.

Modelling conventions:
* Python floats that only ever hold small decimal configuration values
  (timeouts, backoffs, file modification times) are modelled as rationals
  `ℚ`; every arithmetic operation performed on them by the code
  (multiplication by powers of two, comparison) is exact in binary
  floating point for the magnitudes involved, so `ℚ` is faithful.
* Fallible Python code is modelled with `Except PyError`; each Python
  exception class that can actually be raised by the embedded code paths
  is a constructor of `PyError`.
* Mutation of `self` is modelled by explicit state passing: each method
  returns the updated `RouterState` together with its result.
* The HTTP side effect of `httpx.AsyncClient.post` is modelled by an
  oracle `Nat → HttpOutcome` giving the outcome of the i-th HTTP request
  issued during a call (the code never inspects anything else about the
  network).
-/

namespace Swarm

/-- JSON values as returned by `response.json()` in Python.  Object keys are
assumed distinct (Python's JSON decoder keeps one binding per key). -/
inductive Json where
  | null : Json
  | bool : Bool → Json
  | num : Int → Json
  | str : String → Json
  | arr : List Json → Json
  | obj : List (String × Json) → Json

/-- The Python exception classes that the embedded code can raise.
`httpError` covers `httpx.HTTPError` (transport errors and
`raise_for_status`); `runtimeError` is Python's `RuntimeError` (used by the
code for `Configuration file missing`, `Prompt not found ...` and
`Unexpected response format ...`); `keyError` / `indexError` arise from
failed `dict` / `list` subscripts; `valueError` is raised for an unknown
agent target; `typeError` stands for subscripting / using a value of the
wrong runtime type. -/
inductive PyError where
  | httpError : PyError
  | runtimeError : String → PyError
  | keyError : String → PyError
  | indexError : PyError
  | typeError : PyError
  | valueError : String → PyError
deriving DecidableEq, Repr

/-- `retry_if_exception_type((httpx.HTTPError, RuntimeError))` from
`Router._invoke_model` (router.py line 197): which exceptions the tenacity
loop retries. -/
def retryable : PyError → Bool
  | .httpError => true
  | .runtimeError _ => true
  | _ => false

/-- First-match lookup in an association list (Python `dict` access; keys are
unique in every list we build, so first-match equals Python semantics). -/
def lookupA {α β : Type} [DecidableEq α] : List (α × β) → α → Option β
  | [], _ => none
  | (k, v) :: rest, key => if key = k then some v else lookupA rest key

/-- Python `dict` assignment `d[key] = v`: overwrite the binding in place if
the key is present, otherwise append a new binding at the end (insertion
order). -/
def setA {α β : Type} [DecidableEq α] : List (α × β) → α → β → List (α × β)
  | [], key, v => [(key, v)]
  | (k, w) :: rest, key, v =>
      if key = k then (key, v) :: rest else (k, w) :: setA rest key v

/-- `data[key]` on a JSON value: `KeyError` if the key is absent from an
object, `TypeError` when the value is not an object (Python would raise
`TypeError`/`KeyError` depending on the concrete type; no code path in the
claims subscripts a non-object). -/
def Json.getKey : Json → String → Except PyError Json
  | .obj fields, key =>
      match lookupA fields key with
      | some v => .ok v
      | none => .error (.keyError key)
  | _, _ => .error .typeError

/-- `data[i]` on a JSON value: `IndexError` if the list is too short,
`TypeError` when the value is not a list. -/
def Json.getIdx : Json → Nat → Except PyError Json
  | .arr xs, i =>
      match xs.get? i with
      | some v => .ok v
      | none => .error .indexError
  | _, _ => .error .typeError

/-- `key in data` for a JSON value (`False` on non-objects, matching the
guard `isinstance(data, dict)` in the source). -/
def Json.hasKey : Json → String → Bool
  | .obj fields, key => (lookupA fields key).isSome
  | _, _ => false

/-- Coerce an extracted JSON leaf to the Python `str` the function is
declared to return.  A non-string here surfaces as a type error; in Python
the non-string value would flow out and fail at its first string use
(`response.strip()` in `send_message`) — same error class, slightly earlier,
and unreachable for every response body considered in this development. -/
def Json.asStr : Json → Except PyError String
  | .str s => .ok s
  | _ => .error .typeError

/-- The response-shape normalization in `_send_request`
(router.py lines 180-191), applied to the decoded body:
```
if isinstance(data, dict):
    if "choices" in data:
        content = data["choices"][0]["message"]["content"]; return content
    if "message" in data:
        content = data["message"]["content"]; return content
    if "content" in data:
        return data["content"]
raise RuntimeError(f"Unexpected response format from {endpoint}: ...")
```
The `RuntimeError` message is modelled without the endpoint/body suffix
(those do not affect control flow: every `RuntimeError` is retryable). -/
def extract_reply (data : Json) : Except PyError String :=
  if data.hasKey "choices" then do
    let choices ← data.getKey "choices"
    let first ← choices.getIdx 0
    let msg ← first.getKey "message"
    let content ← msg.getKey "content"
    content.asStr
  else if data.hasKey "message" then do
    let msg ← data.getKey "message"
    let content ← msg.getKey "content"
    content.asStr
  else if data.hasKey "content" then do
    let content ← data.getKey "content"
    content.asStr
  else
    .error (.runtimeError "Unexpected response format")

/-- Outcome of one HTTP POST to the agent endpoint: the transport layer
raised (`httpx.HTTPError` from `post`), the status check raised
(`response.raise_for_status()`, an `httpx.HTTPStatusError`, subclass of
`httpx.HTTPError`), or a body was decoded successfully. -/
inductive HttpOutcome where
  | transportError : HttpOutcome
  | statusError : HttpOutcome
  | success : Json → HttpOutcome

/-- One execution of the inner `_send_request` closure
(router.py lines 174-191) given the outcome of its HTTP request. -/
def send_request : HttpOutcome → Except PyError String
  | .transportError => .error .httpError
  | .statusError => .error .httpError
  | .success body => extract_reply body

/-- `RetryConfig` dataclass (router.py lines 44-49). -/
structure RetryConfig where
  max_attempts : Nat
  base_backoff_sec : ℚ
deriving DecidableEq, Repr

/-- `tenacity._utils.MAX_WAIT = sys.maxsize / 2`, which rounds to exactly
`2 ^ 62` as a binary float. -/
def MAX_WAIT : ℚ := 2 ^ 62

/-- `tenacity.wait_exponential(multiplier).__call__` with the default
`exp_base = 2`, `min = 0`, `max = MAX_WAIT`: the sleep inserted after the
failure of attempt number `n` (1-indexed) is
`max(0, min(multiplier * 2 ** (n - 1), MAX_WAIT))`. -/
def wait_exponential (multiplier : ℚ) (attempt_number : Nat) : ℚ :=
  max 0 (min (multiplier * 2 ^ (attempt_number - 1)) MAX_WAIT)

/-- Observable trace of one `_invoke_model` call: its result, how many HTTP
requests were executed, and the backoff sleeps performed between them in
order. -/
structure InvokeTrace where
  result : Except PyError String
  attempts : Nat
  waits : List ℚ
deriving Repr

/-- The `tenacity.AsyncRetrying` loop of `_invoke_model`
(router.py lines 194-203) with `stop_after_attempt(max_attempts)`,
`wait_exponential(multiplier = base_backoff_sec)`,
`retry_if_exception_type((httpx.HTTPError, RuntimeError))` and
`reraise=True`.  `n` is the 1-indexed number of the attempt about to run,
`remaining` the number of further attempts the stop condition still allows
(`max_attempts - n`), `ws` the sleeps accumulated so far, and attempt `n`
consumes oracle index `start + n - 1`.  tenacity checks the retry predicate
first (a non-retryable exception is re-raised unchanged at once), then the
stop condition (when attempts are exhausted, `reraise=True` re-raises the
last exception unchanged), and otherwise sleeps `wait_exponential` for the
just-failed attempt number before the next attempt. -/
def retry_go (base : ℚ) (oracle : Nat → HttpOutcome) (start : Nat) :
    Nat → Nat → List ℚ → InvokeTrace
  | remaining, n, ws =>
    match send_request (oracle (start + n - 1)) with
    | .ok s => ⟨.ok s, n, ws⟩
    | .error e =>
      if retryable e then
        match remaining with
        | 0 => ⟨.error e, n, ws⟩
        | r + 1 => retry_go base oracle start r (n + 1) (ws ++ [wait_exponential base n])
      else ⟨.error e, n, ws⟩

/-- `Router._invoke_model` (router.py lines 162-203): its network payload
construction does not influence the oracle-driven outcomes, so the
observable behaviour is the retry loop run from attempt 1 with
`max_attempts - 1` further attempts allowed.  `start` is the oracle index of
the first request (a second `_invoke_model` call inside the same
`send_message` continues the same oracle stream). -/
def invoke_model_from (cfg : RetryConfig) (oracle : Nat → HttpOutcome) (start : Nat) :
    InvokeTrace :=
  retry_go cfg.base_backoff_sec oracle start (cfg.max_attempts - 1) 1 []

/-- `TimeoutConfig` dataclass (router.py lines 36-41). -/
structure TimeoutConfig where
  request_sec : ℚ
  connect_sec : ℚ
deriving DecidableEq, Repr

/-- `SecurityConfig` dataclass (router.py lines 52-57). -/
structure SecurityConfig where
  token_env : Option String
  enabled : Bool
deriving DecidableEq, Repr

/-- `AgentConfig` dataclass (router.py lines 18-33). -/
structure AgentConfig where
  endpoint : String
  system_prompt_path : String
  model : String
deriving DecidableEq, Repr

/-- One agent entry of the parsed `models.yaml` `agents` mapping, as consumed
by `AgentConfig.from_mapping`: `endpoint` and `system_prompt` are required
keys (a missing key would be a `KeyError`; every configuration considered
here is well-formed), `model` is optional. -/
structure AgentMapping where
  endpoint : String
  system_prompt : String
  model : Option String
deriving DecidableEq, Repr

/-- `Path.is_absolute()` for the POSIX paths used by the repository: the
path begins with the separator `/`. -/
def path_is_absolute (p : String) : Bool :=
  match p.toList with
  | [] => false
  | c :: _ => c = '/'

/-- `(base_dir / prompt_path).resolve()` for a relative path, the identity
for an absolute one (router.py lines 29-31; `resolve()` normalization of
`..` segments is irrelevant to the behaviour proved here, paths are compared
as the strings this produces). -/
def resolve_path (base_dir p : String) : String :=
  if path_is_absolute p then p else base_dir ++ "/" ++ p

/-- `AgentConfig.from_mapping` (router.py lines 26-33). -/
def AgentConfig.from_mapping (data : AgentMapping) (base_dir : String) : AgentConfig :=
  { endpoint := data.endpoint
    system_prompt_path := resolve_path base_dir data.system_prompt
    model := data.model.getD "local-model" }

/-- The parsed contents of `models.yaml`: the `agents` mapping in file order
and the optional scalar settings of the `timeouts`, `retries` and
`security` sections (each `none` when the key is absent, in which case
`ensure_latest_config` applies its defaults). -/
structure ConfigData where
  agents : List (String × AgentMapping)
  timeouts_request_sec : Option ℚ
  timeouts_connect_sec : Option ℚ
  retries_max_attempts : Option Nat
  retries_base_backoff_sec : Option ℚ
  security_token_env : Option String
  security_enabled : Option Bool

/-- The file system visible to the Router: the configuration file with its
modification time and parsed contents (`none` when `models.yaml` is
missing), the directory of the configuration file (against which relative
prompt paths are resolved), and the prompt files, keyed by resolved path —
a path exists exactly when it has an entry, and `read_text` returns the
entry's text. -/
structure Env where
  config_file : Option (ℚ × ConfigData)
  base_dir : String
  files : List (String × String)

/-- One conversation turn, a Python `{"role": ..., "content": ...}` dict. -/
structure Turn where
  role : String
  content : String
deriving DecidableEq, Repr

/-- The mutable attributes of `Router` (router.py lines 63-73).  The
`asyncio.Lock` and the `httpx.AsyncClient` carry no observable state of
their own and are not represented. -/
structure RouterState where
  config_mtime : Option ℚ
  agent_configs : List (String × AgentConfig)
  system_prompts : List (String × String)
  timeout_config : TimeoutConfig
  retry_config : RetryConfig
  security_config : SecurityConfig
  sessions : List ((String × String) × List Turn)

/-- `Router.__init__` field values (router.py lines 63-73). -/
def RouterState.fresh : RouterState :=
  { config_mtime := none
    agent_configs := []
    system_prompts := []
    timeout_config := { request_sec := 120, connect_sec := 10 }
    retry_config := { max_attempts := 2, base_backoff_sec := 2 }
    security_config := { token_env := none, enabled := false }
    sessions := [] }

/-- `self._config_mtime is not None and mtime <= self._config_mtime`
(router.py line 96): the guard under which `ensure_latest_config` returns
without reloading. -/
def mtime_unchanged (stored : Option ℚ) (mtime : ℚ) : Bool :=
  match stored with
  | some prev => decide (mtime ≤ prev)
  | none => false

/-- The agent loop of `ensure_latest_config` (router.py lines 104-110): for
each agent entry in file order, build the `AgentConfig`, raise
`RuntimeError("Prompt not found for agent {name}: {path}")` if the resolved
prompt path does not exist, otherwise read the prompt text.  Returns the
`new_agent_configs` and `new_prompts` mappings in insertion order. -/
def load_agents (files : List (String × String)) (base_dir : String) :
    List (String × AgentMapping) →
      Except PyError (List (String × AgentConfig) × List (String × String))
  | [] => .ok ([], [])
  | (name, mapping) :: rest =>
    let agent_cfg := AgentConfig.from_mapping mapping base_dir
    match lookupA files agent_cfg.system_prompt_path with
    | none => .error (.runtimeError
        ("Prompt not found for agent " ++ name ++ ": " ++ agent_cfg.system_prompt_path))
    | some text => do
      let (cfgs, prompts) ← load_agents files base_dir rest
      .ok ((name, agent_cfg) :: cfgs, (name, text) :: prompts)

/-- `Router.ensure_latest_config` (router.py lines 86-128).  The second
component reports what happened: `.error e` when the method raised (state
unchanged at that point, because the source mutates `self` only after the
whole agent loop succeeded), `.ok reloaded` on normal return, where the
ghost flag `reloaded` records whether a parse/reload was performed (`false`
on the early mtime-unchanged return). -/
def ensure_latest_config (env : Env) (st : RouterState) :
    RouterState × Except PyError Bool :=
  match env.config_file with
  | none => (st, .error (.runtimeError "Configuration file missing"))
  | some (mtime, config_data) =>
    if mtime_unchanged st.config_mtime mtime then (st, .ok false)
    else
      match load_agents env.files env.base_dir config_data.agents with
      | .error e => (st, .error e)
      | .ok (new_agent_configs, new_prompts) =>
        ({ st with
            timeout_config :=
              { request_sec := (config_data.timeouts_request_sec).getD 120
                connect_sec := (config_data.timeouts_connect_sec).getD 10 }
            retry_config :=
              { max_attempts := (config_data.retries_max_attempts).getD 2
                base_backoff_sec := (config_data.retries_base_backoff_sec).getD 2 }
            security_config :=
              { token_env := config_data.security_token_env
                enabled := (config_data.security_enabled).getD false }
            agent_configs := new_agent_configs
            system_prompts := new_prompts
            config_mtime := some mtime },
          .ok true)

/-- `Router._get_session_history` (router.py lines 130-138): on first access
for a key, seed the session with one system turn holding the target's
current prompt text (`self._system_prompts[target]` raises `KeyError` if the
target has no prompt — unreachable from `send_message`, which checks the
agent map first and the two maps always share their key set); afterwards
return the stored transcript. -/
def get_session_history (st : RouterState) (target session_id : String) :
    Except PyError (RouterState × List Turn) :=
  let key := (target, session_id)
  match lookupA st.sessions key with
  | some history => .ok (st, history)
  | none =>
    match lookupA st.system_prompts target with
    | none => .error (.keyError target)
    | some prompt =>
      let seeded := [Turn.mk "system" prompt]
      .ok ({ st with sessions := setA st.sessions key seeded }, seeded)

/-- Store a (mutated) transcript back under its key; in Python the transcript
list is mutated in place inside `self._sessions`, which is observationally
the same as rebinding the key to the extended list. -/
def set_session (st : RouterState) (key : String × String) (history : List Turn) :
    RouterState :=
  { st with sessions := setA st.sessions key history }

/-- `not response.strip()` (router.py line 150): true exactly when every
character of the reply is whitespace (in particular for `""`). -/
def strip_empty (s : String) : Bool :=
  s.toList.all Char.isWhitespace

/-- The corrective system instruction injected on an empty reply
(router.py lines 152-157). -/
def correction_prompt : String :=
  "The previous reply was empty or off-topic. Provide a concise self-summary of the intended answer."

/-- Result of one `Router.send_message` call: the state after the call, the
returned reply or raised exception, and (ghost) how many `_invoke_model`
calls were performed. -/
structure RouteResult where
  state : RouterState
  reply : Except PyError String
  invocations : Nat

/-- `Router.send_message` (router.py lines 140-160):
1. `ensure_latest_config` (raises propagate);
2. unknown target raises `ValueError("Unknown agent target: {target}")`;
3. fetch-or-seed the session transcript, append the user turn;
4. `_invoke_model`; if the reply strips to empty, append the corrective
   system turn and `_invoke_model` exactly once more;
5. append the assistant turn and return the reply.
The two `_invoke_model` calls consume the request oracle in sequence: the
second starts at the index after the attempts the first consumed. -/
def send_message (env : Env) (oracle : Nat → HttpOutcome) (st : RouterState)
    (target session_id message : String) : RouteResult :=
  match ensure_latest_config env st with
  | (st1, .error e) => ⟨st1, .error e, 0⟩
  | (st1, .ok _) =>
    if (lookupA st1.agent_configs target).isNone then
      ⟨st1, .error (.valueError ("Unknown agent target: " ++ target)), 0⟩
    else
      match get_session_history st1 target session_id with
      | .error e => ⟨st1, .error e, 0⟩
      | .ok (st2, history) =>
        let history1 := history ++ [Turn.mk "user" message]
        let st3 := set_session st2 (target, session_id) history1
        let trace1 := invoke_model_from st3.retry_config oracle 0
        match trace1.result with
        | .error e => ⟨st3, .error e, 1⟩
        | .ok response =>
          if strip_empty response then
            let history2 := history1 ++ [Turn.mk "system" correction_prompt]
            let st4 := set_session st3 (target, session_id) history2
            let trace2 := invoke_model_from st4.retry_config oracle trace1.attempts
            match trace2.result with
            | .error e => ⟨st4, .error e, 2⟩
            | .ok response2 =>
              let history3 := history2 ++ [Turn.mk "assistant" response2]
              ⟨set_session st4 (target, session_id) history3, .ok response2, 2⟩
          else
            let history3 := history1 ++ [Turn.mk "assistant" response]
            ⟨set_session st3 (target, session_id) history3, .ok response, 1⟩

/-- An externally triggered Router operation: a configuration refresh
(`ensure_latest_config`, as performed on every request and by the auth
dependency in server.py) or a routed chat call (`send_message`). -/
inductive Op where
  | reload (env : Env)
  | route (env : Env) (oracle : Nat → HttpOutcome) (target session_id message : String)

/-- State reached after performing one operation. -/
def apply_op (st : RouterState) : Op → RouterState
  | .reload env => (ensure_latest_config env st).1
  | .route env oracle target session_id message =>
      (send_message env oracle st target session_id message).state

/-- State reached after performing a sequence of operations in order. -/
def run_ops (st : RouterState) (ops : List Op) : RouterState :=
  ops.foldl apply_op st

/-! ## The Sequential Delivery Queue (server.py lines 54-97)

`SequentialTaskQueue` holds an `asyncio.Queue` (FIFO) of
`(coro_factory, future)` pairs.  `submit` creates a fresh future and puts
the pair at the tail of the queue; the single worker task repeatedly takes
the head pair, awaits the coroutine to completion, resolves the future and
only then takes the next pair.  Tasks are identified by their submission
sequence number (each `submit` call creates a distinct future object).  The
event-loop interleavings of this code are exactly the traces of the
following step relation; `asyncio` runs it single-threaded, and the worker
holds at most one task between its `get` and the corresponding
`task_done`. -/

/-- Ghost-instrumented queue state: `submitted` logs every task id in
submission order, `queued` is the pending FIFO contents (head = oldest),
`running` holds the ids currently being awaited by the worker, and
`finished` logs completed ids in completion order. -/
structure QueueState where
  submitted : List Nat
  queued : List Nat
  running : List Nat
  finished : List Nat
deriving DecidableEq, Repr

/-- The empty queue, as after `SequentialTaskQueue.__init__` / `start`. -/
def QueueState.empty : QueueState := ⟨[], [], [], []⟩

/-- Atomic steps of `SequentialTaskQueue`:
* `submit` — a caller's `await self._queue.put(...)` enqueues a fresh task
  at the tail (ids are submission sequence numbers, so the fresh id is the
  number of tasks submitted so far);
* `start` — the worker's `await self._queue.get()` returns the head task;
  the worker only calls `get` again after finishing the previous task, so
  it holds no other task at this point;
* `finish` — `await coro_factory()` completes (normally or with an
  exception), the worker resolves the future and calls `task_done`. -/
inductive QStep : QueueState → QueueState → Prop where
  | submit (s : QueueState) (id : Nat) :
      id = s.submitted.length →
      QStep s { s with submitted := s.submitted ++ [id], queued := s.queued ++ [id] }
  | start (s : QueueState) (id : Nat) (rest : List Nat) :
      s.running = [] →
      s.queued = id :: rest →
      QStep s { s with queued := rest, running := [id] }
  | finish (s : QueueState) (id : Nat) :
      s.running = [id] →
      QStep s { s with running := [], finished := s.finished ++ [id] }

/-- Queue states reachable from the empty queue. -/
def QReachable (s : QueueState) : Prop :=
  Relation.ReflTransGen QStep QueueState.empty s

/-! ## Concrete fixtures for instantiating the theorems -/

/-- A one-agent configuration (`pm`, relative prompt path, all optional
sections absent). -/
def pmConfigData : ConfigData :=
  ⟨[("pm", ⟨"http://localhost:1234/v1/chat/completions", "prompts/pm.system.md", none⟩)],
    none, none, none, none, none, none⟩

/-- File system with `models.yaml` (mtime 1) and the `pm` prompt present. -/
def pmEnv : Env :=
  ⟨some (1, pmConfigData), "/app", [("/app/prompts/pm.system.md", "You are the PM.")]⟩

/-- Same configuration but the prompt file is absent. -/
def pmEnvMissing : Env := ⟨some (1, pmConfigData), "/app", []⟩

/-- The configuration source touched (mtime 2) and the prompt file changed. -/
def pmEnvV2 : Env :=
  ⟨some (2, pmConfigData), "/app", [("/app/prompts/pm.system.md", "You are someone else.")]⟩

/-- The snapshot produced by the first successful load of `pmEnv`. -/
def pmLoaded : RouterState :=
  { config_mtime := some 1
    agent_configs := [("pm",
      ⟨"http://localhost:1234/v1/chat/completions", "/app/prompts/pm.system.md", "local-model"⟩)]
    system_prompts := [("pm", "You are the PM.")]
    timeout_config := ⟨120, 10⟩
    retry_config := ⟨2, 2⟩
    security_config := ⟨none, false⟩
    sessions := [] }

/-- `pmLoaded` with the session `("pm", "s1")` freshly seeded. -/
def pmSeeded : RouterState :=
  { pmLoaded with
      sessions := [(("pm", "s1"), [Turn.mk "system" "You are the PM."])] }

/-- Delivery oracle: every request succeeds with body `{"content": s}`. -/
def oracleConst (s : String) : Nat → HttpOutcome :=
  fun _ => .success (.obj [("content", .str s)])

/-- Delivery oracle of Scenario B: first request yields `{"content": ""}`,
every later one `{"content": s}`. -/
def oracleEmptyThen (s : String) : Nat → HttpOutcome :=
  fun i => if i = 0 then .success (.obj [("content", .str "")])
           else .success (.obj [("content", .str s)])

/-- Delivery oracle: first request yields an unrecognized body `{}`, every
later one `{"content": s}`. -/
def oracleUnrecognizedThen (s : String) : Nat → HttpOutcome :=
  fun i => if i = 0 then .success (.obj [])
           else .success (.obj [("content", .str s)])

/-! ## Lemmas about the retry loop -/

/-- A successful request ends the loop at the current attempt. -/
theorem retry_go_ok (base : ℚ) (oracle : Nat → HttpOutcome) (start rem n : Nat)
    (ws : List ℚ) (s : String) (he : send_request (oracle (start + n - 1)) = .ok s) :
    retry_go base oracle start rem n ws = ⟨.ok s, n, ws⟩ := by
  rw [retry_go, he]

/-- A non-retryable failure propagates at once, whatever the attempts left. -/
theorem retry_go_error_noretry (base : ℚ) (oracle : Nat → HttpOutcome) (start rem n : Nat)
    (ws : List ℚ) (e : PyError) (he : send_request (oracle (start + n - 1)) = .error e)
    (hr : retryable e = false) :
    retry_go base oracle start rem n ws = ⟨.error e, n, ws⟩ := by
  rw [retry_go, he]
  simp [hr]

/-- A retryable failure on the last permitted attempt is re-raised unchanged. -/
theorem retry_go_error_exhausted (base : ℚ) (oracle : Nat → HttpOutcome) (start n : Nat)
    (ws : List ℚ) (e : PyError) (he : send_request (oracle (start + n - 1)) = .error e)
    (hr : retryable e = true) :
    retry_go base oracle start 0 n ws = ⟨.error e, n, ws⟩ := by
  rw [retry_go, he]
  simp [hr]

/-- A retryable failure with attempts left sleeps `wait_exponential base n`
and continues with the next attempt. -/
theorem retry_go_error_retry (base : ℚ) (oracle : Nat → HttpOutcome) (start r n : Nat)
    (ws : List ℚ) (e : PyError) (he : send_request (oracle (start + n - 1)) = .error e)
    (hr : retryable e = true) :
    retry_go base oracle start (r + 1) n ws =
      retry_go base oracle start r (n + 1) (ws ++ [wait_exponential base n]) := by
  rw [retry_go, he]
  simp [hr]

/-- Splitting off the first element of a shifted range of backoff waits. -/
theorem wait_range_shift (base : ℚ) (n r : Nat) :
    wait_exponential base n :: (List.range r).map (fun i => wait_exponential base (n + 1 + i)) =
      (List.range (r + 1)).map (fun i => wait_exponential base (n + i)) := by
  rw [List.range_succ_eq_map, List.map_cons, List.map_map]
  simp only [Nat.add_zero, Function.comp]
  congr 1
  apply List.map_congr_left
  intro a _
  congr 1
  omega

/-- If every request fails retryably, the loop performs every permitted
attempt, sleeps between consecutive attempts, and surfaces the failure of
the last attempt unchanged. -/
theorem retry_go_all_fail (base : ℚ) (oracle : Nat → HttpOutcome) (start : Nat)
    (hfail : ∀ i, ∃ e, send_request (oracle i) = .error e ∧ retryable e = true) :
    ∀ remaining n ws, ∃ e,
      send_request (oracle (start + (n + remaining) - 1)) = .error e ∧
      retry_go base oracle start remaining n ws =
        ⟨.error e, n + remaining,
          ws ++ (List.range remaining).map (fun i => wait_exponential base (n + i))⟩ := by
  intro remaining
  induction remaining with
  | zero =>
    intro n ws
    obtain ⟨e, he, hr⟩ := hfail (start + n - 1)
    exact ⟨e, he, by rw [retry_go_error_exhausted base oracle start n ws e he hr]; simp⟩
  | succ r ih =>
    intro n ws
    obtain ⟨e, he, hr⟩ := hfail (start + n - 1)
    obtain ⟨e2, he2, hrec⟩ := ih (n + 1) (ws ++ [wait_exponential base n])
    refine ⟨e2, ?_, ?_⟩
    · have hidx : start + (n + 1 + r) - 1 = start + (n + (r + 1)) - 1 := by omega
      rwa [hidx] at he2
    · rw [retry_go_error_retry base oracle start r n ws e he hr, hrec]
      have hatt : n + 1 + r = n + (r + 1) := by omega
      rw [hatt, List.append_assoc, List.singleton_append, wait_range_shift]

/-- Whatever the oracle does, the attempt counter never goes backwards and
the loop sleeps exactly `wait_exponential base m` between attempts `m` and
`m + 1`, for each consecutive pair of attempts it performs. -/
theorem retry_go_attempts_waits (base : ℚ) (oracle : Nat → HttpOutcome) (start : Nat) :
    ∀ remaining n ws, n ≤ (retry_go base oracle start remaining n ws).attempts ∧
      (retry_go base oracle start remaining n ws).waits =
        ws ++ (List.range ((retry_go base oracle start remaining n ws).attempts - n)).map
          (fun i => wait_exponential base (n + i)) := by
  intro remaining
  induction remaining with
  | zero =>
    intro n ws
    cases he : send_request (oracle (start + n - 1)) with
    | ok s => rw [retry_go_ok _ _ _ _ _ _ _ he]; simp
    | error e =>
      cases hr : retryable e with
      | false => rw [retry_go_error_noretry _ _ _ _ _ _ _ he hr]; simp
      | true => rw [retry_go_error_exhausted _ _ _ _ _ _ he hr]; simp
  | succ r ih =>
    intro n ws
    cases he : send_request (oracle (start + n - 1)) with
    | ok s => rw [retry_go_ok _ _ _ _ _ _ _ he]; simp
    | error e =>
      cases hr : retryable e with
      | false => rw [retry_go_error_noretry _ _ _ _ _ _ _ he hr]; simp
      | true =>
        rw [retry_go_error_retry _ _ _ _ _ _ _ he hr]
        obtain ⟨h1, h2⟩ := ih (n + 1) (ws ++ [wait_exponential base n])
        refine ⟨by omega, ?_⟩
        rw [h2]
        have hsplit :
            (retry_go base oracle start r (n + 1) (ws ++ [wait_exponential base n])).attempts - n
              = ((retry_go base oracle start r (n + 1)
                  (ws ++ [wait_exponential base n])).attempts - (n + 1)) + 1 := by
          omega
        rw [hsplit, ← wait_range_shift, List.append_assoc, List.singleton_append]

/-! ## Claims about the Delivery Client -/

/-- Claim C3: for every retry policy with `maxAttempts = k` (k ≥ 1) and a
Delivery Client whose every request raises a retryable failure, the delivery
invocation makes exactly `k` attempts and then surfaces the error of the
k-th (final) attempt unchanged to the caller. -/
theorem C3_retry_count (cfg : RetryConfig) (oracle : Nat → HttpOutcome) (k : Nat)
    (hk : cfg.max_attempts = k) (hk1 : 1 ≤ k)
    (hfail : ∀ i, ∃ e, send_request (oracle i) = .error e ∧ retryable e = true) :
    (invoke_model_from cfg oracle 0).attempts = k ∧
    ∀ e, send_request (oracle (k - 1)) = .error e →
      (invoke_model_from cfg oracle 0).result = .error e := by
  obtain ⟨e, he, hrun⟩ :=
    retry_go_all_fail cfg.base_backoff_sec oracle 0 hfail (cfg.max_attempts - 1) 1 []
  have hsum : 1 + (cfg.max_attempts - 1) = k := by omega
  unfold invoke_model_from
  rw [hrun]
  refine ⟨hsum, ?_⟩
  intro e2 he2
  have hidx : 0 + (1 + (cfg.max_attempts - 1)) - 1 = k - 1 := by omega
  rw [hidx] at he
  have hee : (Except.error e : Except PyError String) = .error e2 := he.symm.trans he2
  cases hee
  rfl

/-- Witness for C3: three retryable transport failures under
`maxAttempts = 3` give exactly three attempts and surface the final
`httpx.HTTPError`. -/
theorem C3_retry_count_witness :
    (invoke_model_from ⟨3, 5⟩ (fun _ => .transportError) 0).attempts = 3 ∧
    (invoke_model_from ⟨3, 5⟩ (fun _ => .transportError) 0).result = .error .httpError := by
  have h := C3_retry_count ⟨3, 5⟩ (fun _ => .transportError) 3 rfl (by decide)
    (fun _ => ⟨.httpError, rfl, rfl⟩)
  exact ⟨h.1, h.2 .httpError rfl⟩

/-- Claim C4 counterexample: with base backoff `-2.0` (a value the
configuration parser accepts), the single wait between the two attempts is
clamped by `tenacity.wait_exponential` to `0`, not `-2 * 2 ^ 0 = -2` as the
unrestricted formula of the claim would demand. -/
theorem C4_backoff_counterexample :
    (invoke_model_from ⟨2, -2⟩ (fun _ => .transportError) 0).waits = [0] ∧
    (invoke_model_from ⟨2, -2⟩ (fun _ => .transportError) 0).waits ≠
      [(-2 : ℚ) * 2 ^ (2 - 2)] := by
  have hrun : invoke_model_from ⟨2, -2⟩ (fun _ => .transportError) 0 =
      ⟨.error .httpError, 2, [wait_exponential (-2) 1]⟩ := by
    simp [invoke_model_from, retry_go, send_request, retryable]
  have hw : wait_exponential (-2) 1 = 0 := by
    simp [wait_exponential, MAX_WAIT]
  rw [hrun]
  constructor
  · simp [hw]
  · simp only [hw]
    intro h
    rw [List.cons.injEq] at h
    norm_num at h

/-- Claim C4 (amended): the wait inserted before retry attempt `n`
(1-indexed, n ≥ 2) is `max 0 (min (b * 2 ^ (n - 2)) MAX_WAIT)` — which
equals `b * 2 ^ (n - 2)` whenever that value lies in `[0, 2 ^ 62]`, in
particular for every realistic nonnegative base backoff — and the first
attempt has no wait; with `maxAttempts = 2` and base backoff `2.0`, a
single wait of exactly `2.0` seconds occurs between the two attempts. -/
theorem C4_backoff_schedule (cfg : RetryConfig) (oracle : Nat → HttpOutcome) (start : Nat) :
    (invoke_model_from cfg oracle start).waits =
      (List.range ((invoke_model_from cfg oracle start).attempts - 1)).map
        (fun i => max 0 (min (cfg.base_backoff_sec * 2 ^ i) MAX_WAIT)) ∧
    invoke_model_from ⟨2, 2⟩ (fun _ => .transportError) 0 =
      ⟨.error .httpError, 2, [2]⟩ := by
  constructor
  · have h :=
      (retry_go_attempts_waits cfg.base_backoff_sec oracle start (cfg.max_attempts - 1) 1 []).2
    unfold invoke_model_from
    rw [h, List.nil_append]
    apply List.map_congr_left
    intro i _
    simp [wait_exponential, Nat.add_sub_cancel_left]
  · simp [invoke_model_from, retry_go, send_request, retryable, wait_exponential, MAX_WAIT]
    norm_num

/-- Claim C5: the Delivery Client tries response shapes in the fixed
priority order `choices`, then `message`, then `content`; each shape
extracts the documented field; an object matching none of the three (or a
non-object) raises the unrecognized-shape `RuntimeError`, which the loop
retries exactly like a transport error. -/
theorem C5_shape_priority :
    (∀ s : String, extract_reply
        (.obj [("choices", .arr [.obj [("message", .obj [("content", .str s)])]])])
        = .ok s) ∧
    (∀ s s2 s3 : String, extract_reply
        (.obj [("choices", .arr [.obj [("message", .obj [("content", .str s)])]]),
               ("message", .obj [("content", .str s2)]),
               ("content", .str s3)]) = .ok s) ∧
    (∀ s s3 : String, extract_reply
        (.obj [("message", .obj [("content", .str s)]), ("content", .str s3)]) = .ok s) ∧
    (∀ s : String, extract_reply (.obj [("content", .str s)]) = .ok s) ∧
    (∀ data : Json, data.hasKey "choices" = false → data.hasKey "message" = false →
        data.hasKey "content" = false →
        extract_reply data = .error (.runtimeError "Unexpected response format")) ∧
    retryable (.runtimeError "Unexpected response format") = retryable .httpError ∧
    (∀ cfg : RetryConfig, 2 ≤ cfg.max_attempts → ∀ (oracle : Nat → HttpOutcome) (s : String),
        oracle 0 = .success (.obj []) →
        oracle 1 = .success (.obj [("content", .str s)]) →
        invoke_model_from cfg oracle 0 =
          ⟨.ok s, 2, [wait_exponential cfg.base_backoff_sec 1]⟩) := by
  refine ⟨fun s => rfl, fun s s2 s3 => rfl, fun s s3 => rfl, fun s => rfl, ?_, rfl, ?_⟩
  · intro data h1 h2 h3
    unfold extract_reply
    rw [h1, h2, h3]
    rfl
  · intro cfg hcfg oracle s h0 h1
    obtain ⟨r, hr⟩ : ∃ r, cfg.max_attempts - 1 = r + 1 := ⟨cfg.max_attempts - 2, by omega⟩
    unfold invoke_model_from
    rw [hr]
    have he0 : send_request (oracle (0 + 1 - 1)) =
        .error (.runtimeError "Unexpected response format") := by
      rw [show (0 : Nat) + 1 - 1 = 0 from rfl, h0]
      exact rfl
    rw [retry_go_error_retry _ _ _ _ _ _ _ he0 rfl]
    have he1 : send_request (oracle (0 + 2 - 1)) = .ok s := by
      rw [show (0 : Nat) + 2 - 1 = 1 from rfl, h1]
      exact rfl
    rw [retry_go_ok _ _ _ _ _ _ _ he1, List.nil_append]

/-- Witness for C5: shape (c) extraction, and an unrecognized first body
retried and recovered on the second attempt under `maxAttempts = 2`. -/
theorem C5_shape_priority_witness :
    extract_reply (.obj [("content", .str "hi")]) = .ok "hi" ∧
    invoke_model_from ⟨2, 1⟩ (oracleUnrecognizedThen "hi") 0 =
      ⟨.ok "hi", 2, [wait_exponential 1 1]⟩ := by
  have h := C5_shape_priority
  exact ⟨h.2.2.2.1 "hi",
    h.2.2.2.2.2.2 ⟨2, 1⟩ (by decide) (oracleUnrecognizedThen "hi") "hi" rfl rfl⟩

/-- Claim C10: a body exposing `choices` whose list is empty or whose first
choice lacks `message`/`content` fails with `IndexError`/`KeyError` — errors
outside the retried `(httpx.HTTPError, RuntimeError)` set and distinct from
the unrecognized-shape `RuntimeError` — so the failure propagates to the
caller after a single attempt, with no retry. -/
theorem C10_choices_lookup_failures :
    extract_reply (.obj [("choices", .arr [])]) = .error .indexError ∧
    extract_reply (.obj [("choices", .arr [.obj [("text", .str "t")]])])
      = .error (.keyError "message") ∧
    extract_reply (.obj [("choices", .arr [.obj [("message",
        .obj [("role", .str "assistant")])]])]) = .error (.keyError "content") ∧
    retryable .indexError = false ∧
    (∀ k, retryable (.keyError k) = false) ∧
    (∀ m, PyError.indexError ≠ PyError.runtimeError m) ∧
    (∀ k m, PyError.keyError k ≠ PyError.runtimeError m) ∧
    (∀ (cfg : RetryConfig) (oracle : Nat → HttpOutcome),
        oracle 0 = .success (.obj [("choices", .arr [])]) →
        invoke_model_from cfg oracle 0 = ⟨.error .indexError, 1, []⟩) := by
  refine ⟨rfl, rfl, rfl, rfl, fun k => rfl, fun m h => PyError.noConfusion h,
    fun k m h => PyError.noConfusion h, ?_⟩
  intro cfg oracle h0
  have he : send_request (oracle (0 + 1 - 1)) = .error .indexError := by
    rw [show (0 : Nat) + 1 - 1 = 0 from rfl, h0]
    exact rfl
  exact retry_go_error_noretry _ _ _ _ _ _ _ he rfl

/-- Witness for C10: an empty `choices` list under `maxAttempts = 3`
propagates `IndexError` after one attempt, without retries. -/
theorem C10_choices_lookup_failures_witness :
    extract_reply (.obj [("choices", .arr [])]) = .error .indexError ∧
    invoke_model_from ⟨3, 2⟩ (fun _ => .success (.obj [("choices", .arr [])])) 0 =
      ⟨.error .indexError, 1, []⟩ := by
  have h := C10_choices_lookup_failures
  exact ⟨h.1, h.2.2.2.2.2.2.2 ⟨3, 2⟩ (fun _ => .success (.obj [("choices", .arr [])])) rfl⟩

/-! ## Lemmas and claims about the Configuration Store -/

/-- `ensure_latest_config` never touches the session store. -/
theorem ensure_latest_sessions (env : Env) (st : RouterState) :
    (ensure_latest_config env st).1.sessions = st.sessions := by
  unfold ensure_latest_config
  cases env.config_file with
  | none => rfl
  | some p =>
    obtain ⟨mtime, data⟩ := p
    cases hm : mtime_unchanged st.config_mtime mtime with
    | true => simp [hm]
    | false =>
      cases hl : load_agents env.files env.base_dir data.agents with
      | error e => simp [hm, hl]
      | ok pair => obtain ⟨a, b⟩ := pair; simp [hm, hl]

/-- If some configured agent's resolved prompt path has no file, the agent
loop fails with the `Prompt not found` `RuntimeError` (of the first such
agent in file order). -/
theorem load_agents_missing (files : List (String × String)) (base_dir : String) :
    ∀ (agents : List (String × AgentMapping)) (name : String) (mapping : AgentMapping),
      (name, mapping) ∈ agents →
      lookupA files (resolve_path base_dir mapping.system_prompt) = none →
      ∃ name2 path2, load_agents files base_dir agents =
        .error (.runtimeError
          ("Prompt not found for agent " ++ name2 ++ ": " ++ path2)) := by
  intro agents
  induction agents with
  | nil => intro name mapping h _; cases h
  | cons head rest ih =>
    intro name mapping hmem hmiss
    obtain ⟨hname, hmap⟩ := head
    cases hl : lookupA files (AgentConfig.from_mapping hmap base_dir).system_prompt_path with
    | none =>
      exact ⟨hname, (AgentConfig.from_mapping hmap base_dir).system_prompt_path,
        by rw [load_agents, hl]⟩
    | some text =>
      rcases List.mem_cons.mp hmem with heq | hrest
      · exfalso
        cases heq
        rw [show (AgentConfig.from_mapping mapping base_dir).system_prompt_path =
              resolve_path base_dir mapping.system_prompt from rfl, hmiss] at hl
        cases hl
      · obtain ⟨n2, p2, hrec⟩ := ih name mapping hrest hmiss
        refine ⟨n2, p2, ?_⟩
        rw [load_agents, hl, hrec]
        rfl

/-- Claim C6: a reload attempt (the configuration source is present and its
mtime has advanced) in which some configured agent's resolved prompt path
does not exist fails with the `PromptNotFound` `RuntimeError` and leaves the
whole previous snapshot — agent map, prompt texts, timeout, retry and
security policies, stored mtime, and sessions — unchanged. -/
theorem C6_reload_allornothing (env : Env) (st : RouterState) (mtime : ℚ)
    (data : ConfigData) (name : String) (mapping : AgentMapping)
    (hcfg : env.config_file = some (mtime, data))
    (hstale : mtime_unchanged st.config_mtime mtime = false)
    (hmem : (name, mapping) ∈ data.agents)
    (hmiss : lookupA env.files (resolve_path env.base_dir mapping.system_prompt) = none) :
    ∃ name2 path2, ensure_latest_config env st =
      (st, .error (.runtimeError
        ("Prompt not found for agent " ++ name2 ++ ": " ++ path2))) := by
  obtain ⟨n2, p2, hl⟩ :=
    load_agents_missing env.files env.base_dir data.agents name mapping hmem hmiss
  refine ⟨n2, p2, ?_⟩
  unfold ensure_latest_config
  rw [hcfg]
  simp [hstale, hl]

/-- Witness for C6: the `pm` agent's prompt file is absent; the reload fails
with `PromptNotFound` and the fresh state is returned untouched. -/
theorem C6_reload_allornothing_witness :
    ∃ name2 path2, ensure_latest_config pmEnvMissing RouterState.fresh =
      (RouterState.fresh, .error (.runtimeError
        ("Prompt not found for agent " ++ name2 ++ ": " ++ path2))) :=
  C6_reload_allornothing pmEnvMissing RouterState.fresh 1 pmConfigData "pm"
    ⟨"http://localhost:1234/v1/chat/completions", "prompts/pm.system.md", none⟩
    rfl rfl (List.mem_singleton.mpr rfl) rfl

/-- Equation: missing configuration source. -/
theorem ensure_latest_missing (env : Env) (st : RouterState)
    (hc : env.config_file = none) :
    ensure_latest_config env st =
      (st, .error (.runtimeError "Configuration file missing")) := by
  unfold ensure_latest_config
  rw [hc]

/-- Equation: modification time not advanced, early no-op return. -/
theorem ensure_latest_fresh (env : Env) (st : RouterState) (mtime : ℚ) (data : ConfigData)
    (hc : env.config_file = some (mtime, data))
    (hm : mtime_unchanged st.config_mtime mtime = true) :
    ensure_latest_config env st = (st, .ok false) := by
  unfold ensure_latest_config
  rw [hc]
  simp [hm]

/-- Equation: reload attempted and the agent loop raised. -/
theorem ensure_latest_reload_error (env : Env) (st : RouterState) (mtime : ℚ)
    (data : ConfigData) (e : PyError)
    (hc : env.config_file = some (mtime, data))
    (hm : mtime_unchanged st.config_mtime mtime = false)
    (hl : load_agents env.files env.base_dir data.agents = .error e) :
    ensure_latest_config env st = (st, .error e) := by
  unfold ensure_latest_config
  rw [hc]
  simp [hm, hl]

/-- Equation: successful reload replaces the snapshot and stores the mtime. -/
theorem ensure_latest_reload_ok (env : Env) (st : RouterState) (mtime : ℚ)
    (data : ConfigData) (cfgs : List (String × AgentConfig))
    (prompts : List (String × String))
    (hc : env.config_file = some (mtime, data))
    (hm : mtime_unchanged st.config_mtime mtime = false)
    (hl : load_agents env.files env.base_dir data.agents = .ok (cfgs, prompts)) :
    ensure_latest_config env st =
      ({ st with
          timeout_config :=
            { request_sec := (data.timeouts_request_sec).getD 120
              connect_sec := (data.timeouts_connect_sec).getD 10 }
          retry_config :=
            { max_attempts := (data.retries_max_attempts).getD 2
              base_backoff_sec := (data.retries_base_backoff_sec).getD 2 }
          security_config :=
            { token_env := data.security_token_env
              enabled := (data.security_enabled).getD false }
          agent_configs := cfgs
          system_prompts := prompts
          config_mtime := some mtime }, .ok true) := by
  unfold ensure_latest_config
  rw [hc]
  simp [hm, hl]

/-- Claim C7: a second `ensure_latest_config` call with no source change
after a successful call is a no-op — it parses nothing (the ghost reload
flag is `false`) and returns the stored state unchanged. -/
theorem C7_reload_idempotent (env : Env) (st st2 : RouterState) (b : Bool)
    (h : ensure_latest_config env st = (st2, .ok b)) :
    ensure_latest_config env st2 = (st2, .ok false) := by
  cases hcf : env.config_file with
  | none =>
    rw [ensure_latest_missing env st hcf] at h
    injection h with h1 h2
    simp at h2
  | some p =>
    obtain ⟨mtime, data⟩ := p
    cases hm : mtime_unchanged st.config_mtime mtime with
    | true =>
      rw [ensure_latest_fresh env st mtime data hcf hm] at h
      injection h with h1 h2
      subst h1
      exact ensure_latest_fresh env st mtime data hcf hm
    | false =>
      cases hl : load_agents env.files env.base_dir data.agents with
      | error e =>
        rw [ensure_latest_reload_error env st mtime data e hcf hm hl] at h
        injection h with h1 h2
        simp at h2
      | ok pair =>
        obtain ⟨cfgs, prompts⟩ := pair
        rw [ensure_latest_reload_ok env st mtime data cfgs prompts hcf hm hl] at h
        injection h with h1 h2
        subst h1
        apply ensure_latest_fresh env _ mtime data hcf
        simp [mtime_unchanged]

/-- Witness for C7: a second refresh right after the first successful load
of the `pm` configuration is a no-op. -/
theorem C7_reload_idempotent_witness :
    ensure_latest_config pmEnv pmLoaded = (pmLoaded, .ok false) :=
  C7_reload_idempotent pmEnv RouterState.fresh pmLoaded true (by rfl)

/-! ## Lemmas about the Session Store and the Router -/

/-- Looking up the key just stored finds the stored value. -/
theorem lookupA_setA_self {α β : Type} [DecidableEq α] (l : List (α × β)) (k : α) (v : β) :
    lookupA (setA l k v) k = some v := by
  induction l with
  | nil => simp [setA, lookupA]
  | cons head rest ih =>
    obtain ⟨k2, v2⟩ := head
    by_cases h : k = k2
    · simp [setA, h, lookupA]
    · simp [setA, h, lookupA, ih]

/-- Storing under one key does not affect lookups of another. -/
theorem lookupA_setA_ne {α β : Type} [DecidableEq α] (l : List (α × β)) (k k2 : α) (v : β)
    (h : k2 ≠ k) : lookupA (setA l k v) k2 = lookupA l k2 := by
  induction l with
  | nil => simp [setA, lookupA, h]
  | cons head rest ih =>
    obtain ⟨k3, v3⟩ := head
    by_cases h3 : k = k3
    · subst h3
      simp [setA, lookupA, h]
    · by_cases h4 : k2 = k3
      · simp [setA, h3, lookupA, h4]
      · simp [setA, h3, lookupA, h4, ih]

/-- `set_session` changes only the `sessions` field. -/
theorem set_session_retry_config (st : RouterState) (key : String × String)
    (h : List Turn) : (set_session st key h).retry_config = st.retry_config := rfl

/-- The `sessions` field after `set_session`. -/
theorem set_session_sessions (st : RouterState) (key : String × String) (h : List Turn) :
    (set_session st key h).sessions = setA st.sessions key h := rfl

/-- Inversion for a normal `_get_session_history` return: every field except
`sessions` is untouched, the returned transcript is stored under the key,
other keys are untouched, and the transcript is either the previously
stored one or the freshly seeded single system turn with the target's
current prompt. -/
theorem get_session_inv (st : RouterState) (t sid : String) (st2 : RouterState)
    (h0 : List Turn) (h : get_session_history st t sid = .ok (st2, h0)) :
    st2.config_mtime = st.config_mtime ∧ st2.agent_configs = st.agent_configs ∧
    st2.system_prompts = st.system_prompts ∧ st2.retry_config = st.retry_config ∧
    lookupA st2.sessions (t, sid) = some h0 ∧
    (∀ key, key ≠ (t, sid) → lookupA st2.sessions key = lookupA st.sessions key) ∧
    ((lookupA st.sessions (t, sid) = some h0 ∧ st2 = st) ∨
      (lookupA st.sessions (t, sid) = none ∧
        ∃ p0, lookupA st.system_prompts t = some p0 ∧ h0 = [Turn.mk "system" p0])) := by
  unfold get_session_history at h
  dsimp only at h
  cases hs : lookupA st.sessions (t, sid) with
  | some hist =>
    rw [hs] at h
    injection h with hpair
    injection hpair with h1 h2
    subst h1
    subst h2
    exact ⟨rfl, rfl, rfl, rfl, hs, fun key _ => rfl, .inl ⟨rfl, rfl⟩⟩
  | none =>
    rw [hs] at h
    cases hp : lookupA st.system_prompts t with
    | none => rw [hp] at h; cases h
    | some prompt =>
      rw [hp] at h
      injection h with hpair
      injection hpair with h1 h2
      subst h1
      subst h2
      refine ⟨rfl, rfl, rfl, rfl, lookupA_setA_self st.sessions (t, sid) _, ?_, ?_⟩
      · intro key hkey
        exact lookupA_setA_ne st.sessions (t, sid) key _ hkey
      · exact .inr ⟨rfl, prompt, rfl, rfl⟩

/-- Claim C9: a `send_message` whose target is not a known agent name in the
current snapshot fails with `ValueError("Unknown agent target: ...")` before
touching the Session Store: no `_invoke_model` call happens and the sessions
map is exactly what it was before the call. -/
theorem C9_unknown_agent (env : Env) (oracle : Nat → HttpOutcome) (st st1 : RouterState)
    (b : Bool) (target sid msg : String)
    (hcfg : ensure_latest_config env st = (st1, .ok b))
    (hunknown : lookupA st1.agent_configs target = none) :
    send_message env oracle st target sid msg =
      ⟨st1, .error (.valueError ("Unknown agent target: " ++ target)), 0⟩ ∧
    st1.sessions = st.sessions := by
  constructor
  · unfold send_message
    rw [hcfg]
    simp [hunknown]
  · have hse := ensure_latest_sessions env st
    rw [hcfg] at hse
    exact hse

/-- Witness for C9: routing to the unconfigured agent `ghost` fails with
`UnknownAgent` and creates no session entry. -/
theorem C9_unknown_agent_witness :
    send_message pmEnv (oracleConst "hi") RouterState.fresh "ghost" "s1" "hi" =
      ⟨pmLoaded, .error (.valueError ("Unknown agent target: " ++ "ghost")), 0⟩ ∧
    pmLoaded.sessions = RouterState.fresh.sessions :=
  C9_unknown_agent pmEnv (oracleConst "hi") RouterState.fresh pmLoaded true
    "ghost" "s1" "hi" (by rfl) rfl

/-- Claim C1: when the first delivery of a routed call returns an empty or
whitespace-only reply, the Router appends exactly one corrective system turn
and invokes the Delivery Client exactly once more — never a second time —
and whatever the second delivery returns (the empty string included) is
appended as the assistant turn and returned as-is. -/
theorem C1_empty_reply_selfcorrection (env : Env) (oracle : Nat → HttpOutcome)
    (st st1 st2 : RouterState) (b : Bool) (target sid msg : String)
    (h0 : List Turn) (s1 s2 : String)
    (hcfg : ensure_latest_config env st = (st1, .ok b))
    (hknown : (lookupA st1.agent_configs target).isNone = false)
    (hsess : get_session_history st1 target sid = .ok (st2, h0))
    (h1 : (invoke_model_from st2.retry_config oracle 0).result = .ok s1)
    (hempty : strip_empty s1 = true)
    (h2 : (invoke_model_from st2.retry_config oracle
            (invoke_model_from st2.retry_config oracle 0).attempts).result = .ok s2) :
    (send_message env oracle st target sid msg).invocations = 2 ∧
    (send_message env oracle st target sid msg).reply = .ok s2 ∧
    lookupA (send_message env oracle st target sid msg).state.sessions (target, sid) =
      some (h0 ++ [Turn.mk "user" msg, Turn.mk "system" correction_prompt,
                   Turn.mk "assistant" s2]) := by
  have hred : send_message env oracle st target sid msg =
      ⟨set_session (set_session (set_session st2 (target, sid) (h0 ++ [Turn.mk "user" msg]))
          (target, sid) ((h0 ++ [Turn.mk "user" msg]) ++ [Turn.mk "system" correction_prompt]))
        (target, sid) (((h0 ++ [Turn.mk "user" msg]) ++ [Turn.mk "system" correction_prompt])
          ++ [Turn.mk "assistant" s2]),
       .ok s2, 2⟩ := by
    unfold send_message
    rw [hcfg]
    simp only [hknown, Bool.false_eq_true, if_false, hsess, set_session_retry_config, h1,
      hempty, if_true, h2]
  rw [hred]
  refine ⟨rfl, rfl, ?_⟩
  rw [set_session_sessions, lookupA_setA_self]
  simp

/-- Witness for C1 (Scenario B): first delivery returns `""`, the next
returns `"summary"`; the call makes exactly two deliveries, replies
`"summary"`, and the transcript gains exactly one corrective system turn
between the user turn and the assistant turn. -/
theorem C1_empty_reply_selfcorrection_witness :
    (send_message pmEnv (oracleEmptyThen "summary") RouterState.fresh
        "pm" "s1" "hello").invocations = 2 ∧
    (send_message pmEnv (oracleEmptyThen "summary") RouterState.fresh
        "pm" "s1" "hello").reply = .ok "summary" ∧
    lookupA (send_message pmEnv (oracleEmptyThen "summary") RouterState.fresh
        "pm" "s1" "hello").state.sessions ("pm", "s1") =
      some [Turn.mk "system" "You are the PM.", Turn.mk "user" "hello",
            Turn.mk "system" correction_prompt, Turn.mk "assistant" "summary"] :=
  C1_empty_reply_selfcorrection pmEnv (oracleEmptyThen "summary") RouterState.fresh
    pmLoaded pmSeeded true "pm" "s1" "hello"
    [Turn.mk "system" "You are the PM."] "" "summary"
    (by rfl) rfl (by rfl) (by rfl) rfl (by rfl)

/-- `send_message` preserves every stored transcript up to appending turns
at its end (for the routed key: the user / corrective / assistant turns of
that call; for every other key: unchanged). -/
theorem send_message_sessions_extend (env : Env) (oracle : Nat → HttpOutcome)
    (st : RouterState) (t sid msg : String) (key : String × String) (h : List Turn)
    (hl : lookupA st.sessions key = some h) :
    ∃ tail, lookupA (send_message env oracle st t sid msg).state.sessions key
      = some (h ++ tail) := by
  unfold send_message
  cases hc : ensure_latest_config env st with
  | mk st1 r =>
    have hl1 : lookupA st1.sessions key = some h := by
      have hse := ensure_latest_sessions env st
      rw [hc] at hse
      rw [show st1.sessions = st.sessions from hse]
      exact hl
    cases r with
    | error e => exact ⟨[], by simpa using hl1⟩
    | ok b =>
      by_cases hk : (lookupA st1.agent_configs t).isNone
      · exact ⟨[], by simpa [hk] using hl1⟩
      · cases hgs : get_session_history st1 t sid with
        | error e => exact ⟨[], by simpa [hk, hgs] using hl1⟩
        | ok pair =>
          obtain ⟨st2, h0⟩ := pair
          obtain ⟨-, -, -, -, hcur, hother, hdisj⟩ := get_session_inv st1 t sid st2 h0 hgs
          simp only [hk, Bool.false_eq_true, if_false, hgs, set_session_retry_config]
          by_cases hkey : key = (t, sid)
          · subst hkey
            rcases hdisj with ⟨hexist, hst2⟩ | ⟨hnone, -⟩
            · have hh0 : h0 = h := by
                rw [hl1] at hexist
                exact (Option.some.injEq .. ▸ hexist).symm
              subst hh0
              cases ht1 : (invoke_model_from st2.retry_config oracle 0).result with
              | error e =>
                exact ⟨[Turn.mk "user" msg],
                  by simp [ht1, set_session_sessions, lookupA_setA_self]⟩
              | ok s1 =>
                cases hst : strip_empty s1 with
                | false =>
                  exact ⟨[Turn.mk "user" msg, Turn.mk "assistant" s1],
                    by simp [ht1, hst, set_session_sessions, lookupA_setA_self]⟩
                | true =>
                  cases ht2 : (invoke_model_from st2.retry_config oracle
                      (invoke_model_from st2.retry_config oracle 0).attempts).result with
                  | error e =>
                    exact ⟨[Turn.mk "user" msg, Turn.mk "system" correction_prompt],
                      by simp [ht1, hst, ht2, set_session_sessions, lookupA_setA_self]⟩
                  | ok s2 =>
                    exact ⟨[Turn.mk "user" msg, Turn.mk "system" correction_prompt,
                        Turn.mk "assistant" s2],
                      by simp [ht1, hst, ht2, set_session_sessions, lookupA_setA_self]⟩
            · rw [hl1] at hnone; cases hnone
          · have hl2 : lookupA st2.sessions key = some h := by
              rw [hother key hkey]; exact hl1
            cases ht1 : (invoke_model_from st2.retry_config oracle 0).result with
            | error e =>
              exact ⟨[], by simp [ht1, set_session_sessions,
                lookupA_setA_ne _ _ _ _ hkey, hl2]⟩
            | ok s1 =>
              cases hst : strip_empty s1 with
              | false =>
                exact ⟨[], by simp [ht1, hst, set_session_sessions,
                  lookupA_setA_ne _ _ _ _ hkey, hl2]⟩
              | true =>
                cases ht2 : (invoke_model_from st2.retry_config oracle
                    (invoke_model_from st2.retry_config oracle 0).attempts).result with
                | error e =>
                  exact ⟨[], by simp [ht1, hst, ht2, set_session_sessions,
                    lookupA_setA_ne _ _ _ _ hkey, hl2]⟩
                | ok s2 =>
                  exact ⟨[], by simp [ht1, hst, ht2, set_session_sessions,
                    lookupA_setA_ne _ _ _ _ hkey, hl2]⟩

/-- Any single Router operation preserves every stored transcript up to
appending turns at its end. -/
theorem apply_op_sessions_extend (st : RouterState) (op : Op) (key : String × String)
    (h : List Turn) (hl : lookupA st.sessions key = some h) :
    ∃ tail, lookupA (apply_op st op).sessions key = some (h ++ tail) := by
  cases op with
  | reload env =>
    refine ⟨[], ?_⟩
    show lookupA (ensure_latest_config env st).1.sessions key = some (h ++ [])
    rw [ensure_latest_sessions]
    simpa using hl
  | route env oracle t sid msg =>
    exact send_message_sessions_extend env oracle st t sid msg key h hl

/-- Any sequence of Router operations preserves every stored transcript up
to appending turns at its end. -/
theorem run_ops_sessions_extend (ops : List Op) :
    ∀ (st : RouterState) (key : String × String) (h : List Turn),
      lookupA st.sessions key = some h →
      ∃ tail, lookupA (run_ops st ops).sessions key = some (h ++ tail) := by
  induction ops with
  | nil => intro st key h hl; exact ⟨[], by simpa [run_ops] using hl⟩
  | cons op rest ih =>
    intro st key h hl
    obtain ⟨t1, h1⟩ := apply_op_sessions_extend st op key h hl
    obtain ⟨t2, h2⟩ := ih (apply_op st op) key (h ++ t1) h1
    refine ⟨t1 ++ t2, ?_⟩
    rw [show run_ops st (op :: rest) = run_ops (apply_op st op) rest from rfl, h2,
      List.append_assoc]

/-- Equation: first access for a key seeds the session with one system turn
holding the target's current prompt text. -/
theorem get_session_new (st : RouterState) (t sid prompt : String)
    (hnone : lookupA st.sessions (t, sid) = none)
    (hp : lookupA st.system_prompts t = some prompt) :
    get_session_history st t sid =
      .ok ({ st with sessions := setA st.sessions (t, sid) [Turn.mk "system" prompt] },
        [Turn.mk "system" prompt]) := by
  unfold get_session_history
  dsimp only
  rw [hnone, hp]

/-- Claim C2: on first access a session is seeded with a single system turn
carrying the target's prompt text from the current snapshot, and for every
later sequence of operations — including configuration reloads that change
the prompt file — fetching the same key yields a transcript whose first
turn is still that originally seeded system prompt. -/
theorem C2_seeded_prompt_stable (st : RouterState) (t sid : String) :
    (∀ prompt, lookupA st.sessions (t, sid) = none →
        lookupA st.system_prompts t = some prompt →
        ∃ st2, get_session_history st t sid = .ok (st2, [Turn.mk "system" prompt]) ∧
          lookupA st2.sessions (t, sid) = some [Turn.mk "system" prompt]) ∧
    (∀ (p : String) (rest : List Turn) (ops : List Op),
        lookupA st.sessions (t, sid) = some (Turn.mk "system" p :: rest) →
        ∃ rest2, lookupA (run_ops st ops).sessions (t, sid) =
          some (Turn.mk "system" p :: rest2)) := by
  constructor
  · intro prompt hnone hp
    exact ⟨{ st with sessions := setA st.sessions (t, sid) [Turn.mk "system" prompt] },
      get_session_new st t sid prompt hnone hp,
      lookupA_setA_self st.sessions (t, sid) [Turn.mk "system" prompt]⟩
  · intro p rest ops hcur
    obtain ⟨tail, htail⟩ := run_ops_sessions_extend ops st (t, sid) _ hcur
    exact ⟨rest ++ tail, by simpa using htail⟩

/-- Witness for C2: seeding the `("pm", "s1")` session stores the snapshot
prompt, and after a reload from a touched source whose prompt file now has
different text, the stored transcript still begins with the originally
seeded prompt. -/
theorem C2_seeded_prompt_stable_witness :
    (∃ st2, get_session_history pmLoaded "pm" "s1" =
        .ok (st2, [Turn.mk "system" "You are the PM."]) ∧
      lookupA st2.sessions ("pm", "s1") = some [Turn.mk "system" "You are the PM."]) ∧
    (∃ rest2, lookupA (run_ops pmSeeded [Op.reload pmEnvV2]).sessions ("pm", "s1") =
      some (Turn.mk "system" "You are the PM." :: rest2)) :=
  ⟨(C2_seeded_prompt_stable pmLoaded "pm" "s1").1 "You are the PM." rfl rfl,
   (C2_seeded_prompt_stable pmSeeded "pm" "s1").2 "You are the PM." [] [Op.reload pmEnvV2] rfl⟩

/-! ## Claim about the Sequential Delivery Queue -/

/-- Claim C8: in every reachable queue state, the completed tasks, the task
in flight and the pending queue — concatenated in that order — spell out
exactly the submission order: the worker starts tasks first-in-first-out,
the completed tasks always form a prefix of the submission order, and at
most one task is in flight at any moment. -/
theorem C8_queue_fifo (s : QueueState) (h : QReachable s) :
    s.finished ++ s.running ++ s.queued = s.submitted ∧
    (∃ rest, s.finished ++ rest = s.submitted) ∧
    s.running.length ≤ 1 := by
  have main : s.finished ++ s.running ++ s.queued = s.submitted ∧
      s.running.length ≤ 1 := by
    induction h with
    | refl => simp [QueueState.empty]
    | tail hab hbc ih =>
      rename_i b c
      obtain ⟨ih1, ih2⟩ := ih
      cases hbc with
      | submit id hid =>
        refine ⟨?_, ih2⟩
        show b.finished ++ b.running ++ (b.queued ++ [id]) = b.submitted ++ [id]
        rw [← ih1]
        simp [List.append_assoc]
      | start id rest hrun hq =>
        refine ⟨?_, by simp⟩
        show b.finished ++ [id] ++ rest = b.submitted
        rw [← ih1, hrun, hq]
        simp
      | finish id hrun =>
        refine ⟨?_, by simp⟩
        show b.finished ++ [id] ++ [] ++ b.queued = b.submitted
        rw [← ih1, hrun]
        simp
  exact ⟨main.1, ⟨s.running ++ s.queued, by rw [← List.append_assoc, main.1]⟩, main.2⟩

/-- Witness for C8: after submitting tasks `0` and `1`, completing `0` and
starting `1`, the completed list `[0]` is a prefix of the submission order
`[0, 1]` and exactly one task is in flight. -/
theorem C8_queue_fifo_witness :
    ([0] : List Nat) ++ [1] ++ [] = [0, 1] ∧
    (∃ rest, ([0] : List Nat) ++ rest = [0, 1]) ∧
    ([1] : List Nat).length ≤ 1 := by
  have s1 : QReachable ⟨[0], [0], [], []⟩ :=
    Relation.ReflTransGen.tail Relation.ReflTransGen.refl (QStep.submit QueueState.empty 0 rfl)
  have s2 : QReachable ⟨[0, 1], [0, 1], [], []⟩ :=
    Relation.ReflTransGen.tail s1 (QStep.submit ⟨[0], [0], [], []⟩ 1 rfl)
  have s3 : QReachable ⟨[0, 1], [1], [0], []⟩ :=
    Relation.ReflTransGen.tail s2 (QStep.start ⟨[0, 1], [0, 1], [], []⟩ 0 [1] rfl rfl)
  have s4 : QReachable ⟨[0, 1], [1], [], [0]⟩ :=
    Relation.ReflTransGen.tail s3 (QStep.finish ⟨[0, 1], [1], [0], []⟩ 0 rfl)
  have s5 : QReachable ⟨[0, 1], [], [1], [0]⟩ :=
    Relation.ReflTransGen.tail s4 (QStep.start ⟨[0, 1], [1], [], [0]⟩ 1 [] rfl rfl)
  exact C8_queue_fifo ⟨[0, 1], [], [1], [0]⟩ s5

end Swarm
